import Mathlib

/-!
Shallow embedding of two source files of the che-dashboard fragment:

* src/store/DevWorkspacePlugins.ts — a Redux slice holding a loading flag
  and a list of plugin identifiers, with one async action creator.
* src/Layout/ErrorBoundary/index.tsx — a React error boundary component
  with a reload countdown for stale-chunk errors.

JavaScript semantics is modelled explicitly where it matters:

* `Array.prototype.push` mutates and returns the NEW LENGTH (a number),
  so the RECEIVE branch of the reducer stores a number into `plugins`;
  the `plugins` field is therefore modelled as a sum of a string list and
  a number (`PluginsField`).
* the reducer switch has no default case, so an action of any other type
  falls through the switch and the function returns `undefined`;
  the reducer result is therefore an `Option` inside `Except`, where
  `Except.error` models a thrown TypeError (calling `.includes` on a
  number) and the inner `none` models the `undefined` return value.
-/

namespace DevWorkspacePlugins

/-- The runtime value stored in the `plugins` field of the slice state.
The declared TypeScript type is `string[]`, but `state.plugins.push(p)`
evaluates to the new array length, a number, which the reducer stores. -/
inductive PluginsField
  | arr (l : List String)
  | num (n : Nat)
deriving Repr, DecidableEq

/-- The slice state: `interface State { isLoading: boolean; plugins: string[] }`. -/
structure DwState where
  isLoading : Bool
  plugins : PluginsField
deriving Repr, DecidableEq

/-- The actions reaching the reducer. `other t` stands for any incoming
action whose `type` string `t` is neither `REQUEST_DW_PLUGIN` nor
`RECEIVE_DW_PLUGIN`. -/
inductive DwAction
  | request
  | receive (plugin : String)
  | other (t : String)
deriving Repr, DecidableEq

/-- `unloadedState` from the source: `{ isLoading: false, plugins: [] }`. -/
def unloadedState : DwState := { isLoading := false, plugins := PluginsField.arr [] }

/-- The reducer. An undefined incoming state yields `unloadedState`.
`REQUEST_DW_PLUGIN` copies the state with `isLoading := true`.
`RECEIVE_DW_PLUGIN` copies the state with
`plugins := state.plugins.includes(p) ? state.plugins : state.plugins.push(p)`;
when `plugins` already holds a number, `.includes` is not a function and a
TypeError is thrown (`Except.error`); when the plugin is new, `push`
returns the new length `l.length + 1`, which is what gets stored.
Any other action type falls through the switch: the function returns
`undefined` (the inner `none`). -/
def reducer (state : Option DwState) (incomingAction : DwAction) :
    Except Unit (Option DwState) :=
  match state with
  | none => Except.ok (some unloadedState)
  | some s =>
    match incomingAction with
    | DwAction.request => Except.ok (some { s with isLoading := true })
    | DwAction.receive plugin =>
      match s.plugins with
      | PluginsField.arr l =>
        let newPlugins :=
          if l.contains plugin then PluginsField.arr l
          else PluginsField.num (l.length + 1)
        Except.ok (some { s with plugins := newPlugins })
      | PluginsField.num _ => Except.error ()
    | DwAction.other _ => Except.ok none

/-- Outcome of one call of the external `fetchDevfile` collaborator. -/
inductive FetchResult
  | ok (plugin : String)
  | err (e : String)
deriving Repr, DecidableEq

/-- Observable behaviour of one invocation of the `requestDwDevfiles`
thunk: the actions it dispatched in order, the error message it threw to
its caller (if any), and how many times it called `fetchDevfile`. -/
structure ThunkRun where
  dispatched : List DwAction
  thrown : Option String
  fetchCalls : Nat
deriving Repr, DecidableEq

/-- The `requestDwDevfiles` action creator. `fetchDevfile k` is the
outcome of the k-th call of the external fetch (the source performs a
single call, so only `fetchDevfile 0` is consulted). The thunk dispatches
`REQUEST_DW_PLUGIN`, then awaits the fetch; on success it dispatches
`RECEIVE_DW_PLUGIN` with the fetched plugin, on failure it throws
`new Error('Failed to request devworkspace plugin, \n' + e)`. -/
def requestDwDevfiles (fetchDevfile : Nat → FetchResult) : ThunkRun :=
  let r := fetchDevfile 0
  match r with
  | FetchResult.ok plugin =>
    { dispatched := [DwAction.request, DwAction.receive plugin]
      thrown := none
      fetchCalls := 1 }
  | FetchResult.err e =>
    { dispatched := [DwAction.request]
      thrown := some ("Failed to request devworkspace plugin, \n" ++ e)
      fetchCalls := 1 }

end DevWorkspacePlugins

namespace ErrorBoundary

/-- A caught JavaScript Error value: its `name` and `message` string
fields (an absent or empty field is the empty string for truthiness
purposes; the error value as a whole being absent is modelled by
`Option` at the use site). -/
structure JsError where
  name : String
  message : String
deriving Repr, DecidableEq

/-- The React ErrorInfo value passed to componentDidCatch. -/
structure ErrorInfoV where
  componentStack : String
deriving Repr, DecidableEq

/-- The component state of the ErrorBoundary, plus one modelling field
`timerArmed` standing for the countdown interval resource held in the
`toDispose` collection (armed by `startCountdown`, released by
`handleStopCountdown` or unmount). -/
structure EBState where
  hasError : Bool
  error : Option JsError
  errorInfo : Option ErrorInfoV
  expanded : Bool
  shouldReload : Bool
  reloadAfter : Int
  timerArmed : Bool
deriving Repr, DecidableEq

/-- RELOAD_TIMEOUT_SEC from the source. -/
def RELOAD_TIMEOUT_SEC : Int := 30

/-- The state set in the constructor. -/
def ebInitial : EBState :=
  { hasError := false
    error := none
    errorInfo := none
    expanded := false
    shouldReload := false
    reloadAfter := RELOAD_TIMEOUT_SEC
    timerArmed := false }

/-- The characters of the literal part "loading chunk " of the regex
`/loading chunk [\d]+ failed/i`. -/
def lcPat1 : List Char :=
  ['l', 'o', 'a', 'd', 'i', 'n', 'g', ' ', 'c', 'h', 'u', 'n', 'k', ' ']

/-- The characters of the literal part " failed" of the regex. -/
def lcPat2 : List Char := [' ', 'f', 'a', 'i', 'l', 'e', 'd']

/-- Match a literal pattern at the head of the input; on success return
the remaining input. -/
def matchPat : List Char → List Char → Option (List Char)
  | [], l => some l
  | _ :: _, [] => none
  | p :: ps, c :: cs => if p = c then matchPat ps cs else none

/-- Try the regex body at this exact position: the literal
"loading chunk ", then one or more digits, then the literal " failed".
Greedy digit matching is equivalent to taking the maximal digit run
because the next pattern character, a space, is not a digit. -/
def matchChunkAt (l : List Char) : Bool :=
  match matchPat lcPat1 l with
  | none => false
  | some rest =>
    let ds := rest.takeWhile Char.isDigit
    let body := rest.dropWhile Char.isDigit
    !ds.isEmpty && (matchPat lcPat2 body).isSome

/-- Unanchored regex search: try the match at every position. -/
def searchFrom : List Char → Bool
  | [] => false
  | c :: cs => matchChunkAt (c :: cs) || searchFrom cs

/-- Case-fold the message like the `/i` flag does for the ASCII letters
of this pattern. -/
def foldedChars (message : String) : List Char := message.data.map Char.toLower

/-- `testResourceNotFound` from the source:
`/loading chunk [\d]+ failed/i.test(error.message)`. -/
def testResourceNotFound (error : JsError) : Bool :=
  searchFrom (foldedChars error.message)

/-- Modelled from the spec words for the C5 pattern: the lower-cased
message contains, somewhere, the text "loading chunk ", then a nonempty
run of digits, then " failed". Used only to compare the regex embedding
against the spec sentence. -/
def SpecChunkMatch (message : String) : Prop :=
  ∃ before ds after : List Char,
    ds ≠ [] ∧ (∀ c ∈ ds, Char.isDigit c = true) ∧
    foldedChars message = before ++ lcPat1 ++ ds ++ lcPat2 ++ after

/-- One tick of the interval armed by `startCountdown`: decrement
`reloadAfter`, and report whether this tick called `handleReloadNow`
(the decremented value compared equal to 0). -/
def tickStep (s : EBState) : EBState × Bool :=
  let reloadAfter := s.reloadAfter - 1
  ({ s with reloadAfter := reloadAfter }, reloadAfter == 0)

/-- Run `n` ticks of the countdown interval and count how many of them
triggered a page reload. -/
def tickTrace : EBState → Nat → EBState × Nat
  | s, 0 => (s, 0)
  | s, n + 1 =>
    let p := tickStep s
    let q := tickTrace p.1 n
    (q.1, (if p.2 then 1 else 0) + q.2)

/-- The state transitions of the mounted component. `renderError` is
`getDerivedStateFromError` (which returns only `{ hasError: true }`),
`catchError` is `componentDidCatch`, `toggleStack` is
`handleToggleViewStack`, `stopCountdown` is `handleStopCountdown`
(disposes the interval), `tick` is one firing of the interval callback. -/
inductive EBEvent
  | renderError
  | catchError (e : JsError) (info : ErrorInfoV)
  | toggleStack
  | stopCountdown
  | tick
deriving Repr

/-- The combined step function of the component state machine, clause by
clause from the source handlers. -/
def ebStep (s : EBState) (ev : EBEvent) : EBState :=
  match ev with
  | EBEvent.renderError => { s with hasError := true }
  | EBEvent.catchError e info =>
    let s1 := { s with hasError := true, error := some e, errorInfo := some info }
    if testResourceNotFound e then { s1 with shouldReload := true, timerArmed := true }
    else s1
  | EBEvent.toggleStack => { s with expanded := !s.expanded }
  | EBEvent.stopCountdown => { s with timerArmed := false }
  | EBEvent.tick => (tickStep s).1

/-- The title of the error alert begins with the error name when that is
a truthy (nonempty) string; otherwise the source falls back to the
global `Error` constructor function itself (the expression
`error?.name ? error.name : Error`). -/
inductive TitleName
  | str (s : String)
  | errorCtor
deriving Repr, DecidableEq

/-- The observable content of the alert built by
`buildErrorMessageAlert`: the two parts of its title, the action link
label, and the stack text when the expandable stack section is present. -/
structure ErrorAlert where
  titleName : TitleName
  titleSuffix : String
  actionLinkLabel : String
  stack : Option String
deriving Repr, DecidableEq

/-- `buildErrorMessageAlert` from the source. `errorName` is
`error?.name ? error.name : Error`; `errorMessage` is
`error?.message ? ': ' + error.message : ''`; the stack section is
rendered only when `expanded && errorInfo` is truthy. -/
def buildErrorMessageAlert (s : EBState) : ErrorAlert :=
  let errorName : TitleName :=
    match s.error with
    | some e => if e.name ≠ "" then TitleName.str e.name else TitleName.errorCtor
    | none => TitleName.errorCtor
  let errorMessage : String :=
    match s.error with
    | some e => if e.message ≠ "" then ": " ++ e.message else ""
    | none => ""
  let stack : Option String :=
    if s.expanded then
      match s.errorInfo with
      | some info => some info.componentStack
      | none => none
    else none
  { titleName := errorName
    titleSuffix := errorMessage
    actionLinkLabel := if s.expanded then "Hide stack" else "View stack"
    stack := stack }

/-- The observable content of the reload warning alert. -/
structure ReloadAlert where
  secondsLeft : Int
deriving Repr, DecidableEq

/-- `buildReloadAlert` from the source: nothing when `shouldReload` is
false, otherwise the warning alert showing `reloadAfter`. -/
def buildReloadAlert (s : EBState) : Option ReloadAlert :=
  if s.shouldReload = false then none
  else some { secondsLeft := s.reloadAfter }

/-- The render result: either the pass-through of the children of the
component, or the error page section holding the optional reload alert
and the error alert. -/
inductive Rendered
  | childrenPassThrough
  | errorPage (reload : Option ReloadAlert) (err : ErrorAlert)
deriving Repr, DecidableEq

/-- `render` from the source: when `hasError` is false it returns
`this.props.children`, otherwise the page section with both alerts. -/
def render (s : EBState) : Rendered :=
  if s.hasError = false then Rendered.childrenPassThrough
  else Rendered.errorPage (buildReloadAlert s) (buildErrorMessageAlert s)

/-- The concrete chunk-load error of the spec test point. -/
def chunkErr42 : JsError := { name := "Error", message := "Loading chunk 42 failed." }

/-- The concrete non-matching error of the spec test point. -/
def netErr : JsError := { name := "Error", message := "Network error" }

/-- A concrete ErrorInfo value for witnesses. -/
def someInfo : ErrorInfoV := { componentStack := "in App" }

end ErrorBoundary

namespace ErrorBoundary

/-- The state reached from a fresh mount by catching the stale-chunk
error: the countdown is armed and reloadAfter is still 30. -/
def armedStart : EBState := ebStep ebInitial (EBEvent.catchError chunkErr42 someInfo)

end ErrorBoundary

section Theorems

open DevWorkspacePlugins ErrorBoundary

/-- Helper: matchPat consumes exactly the pattern as a leading segment. -/
theorem matchPat_eq_some : ∀ p l r : List Char, matchPat p l = some r ↔ l = p ++ r
  | [], l, r => by simp [matchPat]
  | p :: ps, [], r => by simp [matchPat]
  | p :: ps, c :: cs, r => by
    by_cases h : p = c
    · subst h
      simp [matchPat, matchPat_eq_some ps cs r]
    · simp [matchPat, h, Ne.symm h]

/-- Helper: takeWhile over a block of satisfying elements passes the
whole block through. -/
theorem takeWhile_append_sat (p : Char → Bool) :
    ∀ ds rest : List Char, (∀ c ∈ ds, p c = true) →
      List.takeWhile p (ds ++ rest) = ds ++ List.takeWhile p rest
  | [], rest, _ => rfl
  | c :: ds, rest, h => by
    have hc : p c = true := h c (List.mem_cons_self c ds)
    have ih := takeWhile_append_sat p ds rest fun x hx => h x (List.mem_cons_of_mem c hx)
    simp [List.takeWhile_cons, hc, ih]

/-- Helper: dropWhile drops a whole block of satisfying elements. -/
theorem dropWhile_append_sat (p : Char → Bool) :
    ∀ ds rest : List Char, (∀ c ∈ ds, p c = true) →
      List.dropWhile p (ds ++ rest) = List.dropWhile p rest
  | [], rest, _ => rfl
  | c :: ds, rest, h => by
    have hc : p c = true := h c (List.mem_cons_self c ds)
    have ih := dropWhile_append_sat p ds rest fun x hx => h x (List.mem_cons_of_mem c hx)
    simp [List.dropWhile_cons, hc, ih]

/-- Helper: the anchored matcher succeeds exactly on inputs of the shape
pattern-one, digits, pattern-two, remainder. -/
theorem matchChunkAt_eq_true (l : List Char) :
    matchChunkAt l = true ↔
      ∃ ds post : List Char, ds ≠ [] ∧ (∀ c ∈ ds, Char.isDigit c = true) ∧
        l = lcPat1 ++ (ds ++ (lcPat2 ++ post)) := by
  constructor
  · intro h
    unfold matchChunkAt at h
    cases hm : matchPat lcPat1 l with
    | none => rw [hm] at h; cases h
    | some rest =>
      rw [hm] at h
      simp only [Bool.and_eq_true, Bool.not_eq_true', Option.isSome_iff_exists] at h
      obtain ⟨hne, post, hp⟩ := h
      refine ⟨rest.takeWhile Char.isDigit, post, ?_, ?_, ?_⟩
      · intro hcon
        rw [hcon] at hne
        simp at hne
      · intro c hc
        exact List.mem_takeWhile_imp hc
      · have hl : l = lcPat1 ++ rest := (matchPat_eq_some _ _ _).mp hm
        have hdrop : rest.dropWhile Char.isDigit = lcPat2 ++ post :=
          (matchPat_eq_some _ _ _).mp hp
        rw [hl]
        conv_lhs => rw [← List.takeWhile_append_dropWhile Char.isDigit rest, hdrop]
  · rintro ⟨ds, post, hne, hdig, rfl⟩
    unfold matchChunkAt
    have hm : matchPat lcPat1 (lcPat1 ++ (ds ++ (lcPat2 ++ post)))
        = some (ds ++ (lcPat2 ++ post)) := (matchPat_eq_some _ _ _).mpr rfl
    rw [hm]
    have hsp : Char.isDigit ' ' = false := by decide
    have ht : (ds ++ (lcPat2 ++ post)).takeWhile Char.isDigit = ds := by
      rw [takeWhile_append_sat Char.isDigit ds _ hdig]
      simp [lcPat2, List.takeWhile_cons, hsp]
    have hd : (ds ++ (lcPat2 ++ post)).dropWhile Char.isDigit = lcPat2 ++ post := by
      rw [dropWhile_append_sat Char.isDigit ds _ hdig]
      simp [lcPat2, List.dropWhile_cons, hsp]
    have hp2 : matchPat lcPat2 (lcPat2 ++ post) = some post := (matchPat_eq_some _ _ _).mpr rfl
    simp only [Bool.and_eq_true, Bool.not_eq_true', Option.isSome_iff_exists]
    refine ⟨?_, post, ?_⟩
    · rw [ht]
      cases ds with
      | nil => exact absurd rfl hne
      | cons a as => rfl
    · rw [hd]
      exact hp2

/-- Helper: the unanchored search succeeds exactly when some position
admits the anchored match. -/
theorem searchFrom_eq_true : ∀ l : List Char,
    searchFrom l = true ↔
      ∃ before suf : List Char, l = before ++ suf ∧ matchChunkAt suf = true
  | [] => by
    constructor
    · intro h; cases h
    · rintro ⟨before, suf, hb, hm⟩
      rcases List.append_eq_nil.mp hb.symm with ⟨rfl, rfl⟩
      exact absurd hm (by decide)
  | c :: cs => by
    constructor
    · intro h
      rcases (Bool.or_eq_true _ _).mp h with h1 | h2
      · exact ⟨[], c :: cs, rfl, h1⟩
      · obtain ⟨b, suf, hb, hm⟩ := (searchFrom_eq_true cs).mp h2
        exact ⟨c :: b, suf, by simp [hb], hm⟩
    · rintro ⟨before, suf, hb, hm⟩
      show (matchChunkAt (c :: cs) || searchFrom cs) = true
      cases before with
      | nil =>
        simp only [List.nil_append] at hb
        rw [← hb] at hm
        simp [hm]
      | cons x xs =>
        have hx : c = x ∧ cs = xs ++ suf := by simpa using hb
        have hrec : searchFrom cs = true :=
          (searchFrom_eq_true cs).mpr ⟨xs, suf, hx.2, hm⟩
        simp [hrec]

/-- Helper: the embedded regex test agrees with the spec sentence about
the pattern "loading chunk <digits> failed", case-insensitively. -/
theorem testResourceNotFound_iff (e : JsError) :
    testResourceNotFound e = true ↔ SpecChunkMatch e.message := by
  unfold testResourceNotFound SpecChunkMatch
  rw [searchFrom_eq_true]
  constructor
  · rintro ⟨before, suf, hb, hm⟩
    obtain ⟨ds, post, hne, hdig, rfl⟩ := (matchChunkAt_eq_true suf).mp hm
    exact ⟨before, ds, post, hne, hdig, by rw [hb]; simp [List.append_assoc]⟩
  · rintro ⟨before, ds, post, hne, hdig, hmsg⟩
    refine ⟨before, lcPat1 ++ (ds ++ (lcPat2 ++ post)), ?_, ?_⟩
    · rw [hmsg]; simp [List.append_assoc]
    · exact (matchChunkAt_eq_true _).mpr ⟨ds, post, hne, hdig, rfl⟩

/-- Helper: across n ticks, reloadAfter drops by n and the reload fires
exactly once when the starting value lies between 1 and n. -/
theorem tickTrace_spec (n : Nat) : ∀ s : EBState,
    (tickTrace s n).1.reloadAfter = s.reloadAfter - n
    ∧ (tickTrace s n).2
        = (if 1 ≤ s.reloadAfter ∧ s.reloadAfter ≤ (n : Int) then 1 else 0) := by
  induction n with
  | zero =>
    intro s
    refine ⟨by simp [tickTrace], ?_⟩
    simp only [tickTrace]
    split_ifs with h
    · omega
    · rfl
  | succ n ih =>
    intro s
    have h1 := ih (tickStep s).1
    have hr : (tickStep s).1.reloadAfter = s.reloadAfter - 1 := rfl
    constructor
    · show (tickTrace (tickStep s).1 n).1.reloadAfter = _
      rw [h1.1, hr]
      push_cast
      ring
    · show (if (tickStep s).2 then 1 else 0) + (tickTrace (tickStep s).1 n).2 = _
      rw [h1.2, hr]
      have hb : (tickStep s).2 = (s.reloadAfter - 1 == 0) := rfl
      rw [hb]
      simp only [beq_iff_eq]
      split_ifs <;> push_cast at * <;> omega

/-- C1: the claim says RECEIVE_DW_PLUGIN with a plugin p not yet in the
list returns a state whose plugins field is the old list with p appended.
The code instead stores the return value of Array.prototype.push, which
is the new length, a number: on the empty list and plugin "p" the
resulting plugins field is the number 1, not the list containing "p". -/
theorem c1_receive_stores_push_length :
    reducer (some unloadedState) (DwAction.receive "p")
      = Except.ok (some { isLoading := false, plugins := PluginsField.num 1 })
    ∧ PluginsField.num 1 ≠ PluginsField.arr ["p"] :=
  ⟨rfl, by decide⟩

/-- C2: the claim says an action of an unrecognized type returns the
state unchanged. The reducer switch has no default case, so the function
falls through and returns undefined instead of the incoming state. -/
theorem c2_unknown_action_returns_undefined :
    reducer (some unloadedState) (DwAction.other "SOME_OTHER_ACTION") = Except.ok none
    ∧ (Except.ok none : Except Unit (Option DwState)) ≠ Except.ok (some unloadedState) :=
  ⟨rfl, by simp⟩

/-- C3: the claim says applying RECEIVE_DW_PLUGIN with the same plugin
twice yields the same plugins list as applying it once. On the code,
from the initial state and plugin "a", the first application stores the
number 1 into plugins, and the second application throws a TypeError
because .includes is called on that number. -/
theorem c3_second_receive_throws :
    reducer (some unloadedState) (DwAction.receive "a")
      = Except.ok (some { isLoading := false, plugins := PluginsField.num 1 })
    ∧ reducer (some { isLoading := false, plugins := PluginsField.num 1 })
        (DwAction.receive "a") = Except.error () :=
  ⟨rfl, rfl⟩

/-- C4: when the external fetchDevfile call fails, requestDwDevfiles
dispatches only the REQUEST_DW_PLUGIN action (no RECEIVE_DW_PLUGIN),
throws the wrapped error to its caller, calls the fetch exactly once,
and the only state change a REQUEST_DW_PLUGIN dispatch produces is
isLoading set to true. -/
theorem c4_fetch_failure_behaviour (fetchDevfile : Nat → FetchResult) (e : String)
    (s : DwState) (h : fetchDevfile 0 = FetchResult.err e) :
    (requestDwDevfiles fetchDevfile).dispatched = [DwAction.request]
    ∧ (requestDwDevfiles fetchDevfile).thrown
        = some ("Failed to request devworkspace plugin, \n" ++ e)
    ∧ (requestDwDevfiles fetchDevfile).fetchCalls = 1
    ∧ reducer (some s) DwAction.request
        = Except.ok (some { isLoading := true, plugins := s.plugins }) := by
  refine ⟨?_, ?_, ?_, rfl⟩ <;> simp [requestDwDevfiles, h]

/-- Witness for C4 at a concrete failing fetch and the initial state. -/
theorem c4_fetch_failure_behaviour_witness :
    (requestDwDevfiles (fun _ => FetchResult.err "net down")).dispatched = [DwAction.request]
    ∧ (requestDwDevfiles (fun _ => FetchResult.err "net down")).thrown
        = some ("Failed to request devworkspace plugin, \n" ++ "net down")
    ∧ (requestDwDevfiles (fun _ => FetchResult.err "net down")).fetchCalls = 1
    ∧ reducer (some unloadedState) DwAction.request
        = Except.ok (some { isLoading := true, plugins := unloadedState.plugins }) :=
  c4_fetch_failure_behaviour (fun _ => FetchResult.err "net down") "net down" unloadedState rfl

/-- C5: catching an error sets shouldReload (and arms the countdown
timer) exactly when the message matches the case-insensitive pattern
"loading chunk <digits> failed"; the regex embedding agrees with that
spec pattern, "Loading chunk 42 failed." matches, "Network error" does
not. -/
theorem c5_shouldReload_iff_pattern (s : EBState) (e : JsError) (info : ErrorInfoV) :
    (ebStep s (EBEvent.catchError e info)).shouldReload
        = (s.shouldReload || testResourceNotFound e)
    ∧ (ebStep s (EBEvent.catchError e info)).timerArmed
        = (s.timerArmed || testResourceNotFound e)
    ∧ (testResourceNotFound e = true ↔ SpecChunkMatch e.message)
    ∧ testResourceNotFound chunkErr42 = true
    ∧ testResourceNotFound netErr = false := by
  refine ⟨?_, ?_, testResourceNotFound_iff e, by decide, by decide⟩ <;>
    by_cases h : testResourceNotFound e = true <;>
      simp [ebStep, h, Bool.not_eq_true]

/-- Witness for C5 at the concrete chunk error from a fresh mount. -/
theorem c5_shouldReload_iff_pattern_witness :
    (ebStep ebInitial (EBEvent.catchError chunkErr42 someInfo)).shouldReload = true := by
  rw [(c5_shouldReload_iff_pattern ebInitial chunkErr42 someInfo).1]
  decide

/-- C6: from the armed countdown state with reloadAfter equal to 30,
every tick decrements reloadAfter by exactly one, and across n ticks the
page reload fires exactly once when n reaches 30 and never before. -/
theorem c6_countdown_fires_once (n : Nat) (s : EBState) :
    armedStart.reloadAfter = 30
    ∧ (tickStep s).1.reloadAfter = s.reloadAfter - 1
    ∧ (tickTrace armedStart n).1.reloadAfter = 30 - (n : Int)
    ∧ (tickTrace armedStart n).2 = (if 30 ≤ n then 1 else 0) := by
  have hr : armedStart.reloadAfter = 30 := by decide
  have h := tickTrace_spec n armedStart
  refine ⟨hr, rfl, ?_, ?_⟩
  · rw [h.1, hr]
  · rw [h.2, hr]
    split_ifs <;> omega

/-- C7: once hasError is true, every further transition of the
component state machine leaves hasError true. -/
theorem c7_hasError_never_resets (s : EBState) (ev : EBEvent)
    (h : s.hasError = true) : (ebStep s ev).hasError = true := by
  cases ev with
  | renderError => rfl
  | catchError e info =>
    simp only [ebStep]
    split <;> rfl
  | toggleStack => exact h
  | stopCountdown => exact h
  | tick => exact h

/-- Witness for C7: after trapping an error and then toggling the stack
view, hasError is still true. -/
theorem c7_hasError_never_resets_witness :
    (ebStep (ebStep ebInitial EBEvent.renderError) EBEvent.toggleStack).hasError = true :=
  c7_hasError_never_resets _ EBEvent.toggleStack rfl

/-- C8: a REQUEST_DW_PLUGIN action always yields isLoading true and
leaves the plugins field exactly as it was, for every state. -/
theorem c8_request_sets_isLoading (s : DwState) :
    reducer (some s) DwAction.request
      = Except.ok (some { isLoading := true, plugins := s.plugins }) := rfl

/-- C9: whenever hasError is false, render returns exactly the children
pass-through and nothing else. -/
theorem c9_healthy_renders_children (s : EBState) (h : s.hasError = false) :
    render s = Rendered.childrenPassThrough := by
  simp [render, h]

/-- Witness for C9 at the initial state. -/
theorem c9_healthy_renders_children_witness :
    render ebInitial = Rendered.childrenPassThrough :=
  c9_healthy_renders_children ebInitial rfl

/-- C10: getDerivedStateFromError yields a reachable state with
hasError true but error and errorInfo still absent, and on every state
with both absent, buildErrorMessageAlert still produces a panel whose
title name falls back to the Error constructor with an empty message
suffix and whose stack section is omitted. -/
theorem c10_alert_total_without_error (s : EBState)
    (he : s.error = none) (hi : s.errorInfo = none) :
    ebStep ebInitial EBEvent.renderError = { ebInitial with hasError := true }
    ∧ (buildErrorMessageAlert s).titleName = TitleName.errorCtor
    ∧ (buildErrorMessageAlert s).titleSuffix = ""
    ∧ (buildErrorMessageAlert s).stack = none := by
  refine ⟨rfl, ?_, ?_, ?_⟩ <;> simp [buildErrorMessageAlert, he, hi]

/-- Witness for C10 at the state reached by getDerivedStateFromError
from a fresh mount. -/
theorem c10_alert_total_without_error_witness :
    (buildErrorMessageAlert (ebStep ebInitial EBEvent.renderError)).titleSuffix = ""
    ∧ (buildErrorMessageAlert (ebStep ebInitial EBEvent.renderError)).stack = none :=
  ⟨(c10_alert_total_without_error (ebStep ebInitial EBEvent.renderError) rfl rfl).2.2.1,
   (c10_alert_total_without_error (ebStep ebInitial EBEvent.renderError) rfl rfl).2.2.2⟩

end Theorems
